import Mathlib

/-
Verification of the chuk-artifacts federation layer and storage-provider
contracts against the natural-language specification.

The federation layer (chuk_artifacts/federation/manager.py and
chuk_artifacts/federation/store.py) is embedded shallowly below:

* The session provider is a TTL key-value store with methods `get`,
  `setex`, `delete` (the memory provider, which has no native set
  primitives `sadd` / `srem` / `smembers`, so every `hasattr(session,
  "sadd")` branch of the source selects the JSON fallback).  TTLs and
  wall-clock expiry are real-time behaviour and are not modelled: `setex`
  stores the value and ignores the TTL argument; the `stored_at` and
  stats timestamp strings are threaded as opaque parameters or dropped.
* Values stored by the federation code are JSON texts.  They are
  modelled by the inductive `StoredValue`: `vloc` is the serialized
  `ArtifactLocation` dict, `varr` a JSON array of strings, `vstats` the
  stats dict (only its two counters are kept, the timestamp fields being
  real-time data), and `vother` any text on which `json.loads` fails.
  `json.dumps` followed by `json.loads` is the identity on these values,
  which the constructor/destructor reading below reflects exactly.
* Provider failures (the "federation index unreachable" row of the
  error taxonomy) are modelled by a `broken` flag on the store: when it
  is set every provider call raises.  Computations that may raise return
  `Except String _`; a `try/except` of the source becomes a `match` on
  that result.
-/

namespace ChukArtifacts

/-- Serialized ArtifactLocation dataclass (manager.py lines 25-42): the
fields of the federation location record.  `size` is a Python int, here a
natural number (it is produced as a byte length); `checksum` is optional. -/
structure ArtifactLocation where
  artifact_id : String
  sandbox_id : String
  session_id : String
  grid_key : String
  size : Nat
  mime : String
  stored_at : String
  checksum : Option String
  deriving DecidableEq, Repr

/-- Keys of the JSON object produced by `ArtifactLocation.to_dict`;
iterating a decoded JSON object in Python yields its keys, so
`set(json.loads(text))` applied to a serialized location gives this set. -/
def locationJsonKeys : List String :=
  ["artifact_id", "sandbox_id", "session_id", "grid_key",
   "size", "mime", "stored_at", "checksum"]

/-- Values held by the session provider, as the federation code writes
them.  `vloc` models `json.dumps(location.to_dict())`, `varr` models
`json.dumps(list_of_strings)`, `vstats` models the stats dict written by
`_update_stats` (timestamps dropped, counters kept), and `vother` models
any text on which `json.loads` raises `JSONDecodeError`. -/
inductive StoredValue where
  | vloc (loc : ArtifactLocation)
  | varr (items : List String)
  | vstats (registered unregistered : Nat)
  | vother
  deriving DecidableEq, Repr

/-- Session provider state: the key-value map plus a `broken` flag.  When
`broken` is set, every provider call raises (the federation index is
unreachable); otherwise calls succeed.  The memory session provider has
`get`, `setex` and `delete` but no native set primitives. -/
structure SessionKV where
  map : String → Option StoredValue
  broken : Bool

/-- Provider `get`: returns the value under the key, `none` when absent;
raises when the provider is unreachable. -/
def SessionKV.getE (kv : SessionKV) (key : String) :
    Except String (Option StoredValue) :=
  if kv.broken then .error "session provider unreachable"
  else .ok (kv.map key)

/-- Provider `setex`: stores the value under the key (the TTL argument of
the source is not modelled); raises when the provider is unreachable. -/
def SessionKV.setexE (kv : SessionKV) (key : String) (v : StoredValue) :
    Except String SessionKV :=
  if kv.broken then .error "session provider unreachable"
  else .ok { kv with map := fun k => if k = key then some v else kv.map k }

/-- Provider `delete`: removes the key; raises when the provider is
unreachable. -/
def SessionKV.deleteE (kv : SessionKV) (key : String) :
    Except String SessionKV :=
  if kv.broken then .error "session provider unreachable"
  else .ok { kv with map := fun k => if k = key then none else kv.map k }

namespace FederationIndex

/-- Key pattern of `_artifact_key` (manager.py line 63). -/
def artifactKey (artifact_id : String) : String :=
  "federation:artifact:" ++ artifact_id

/-- Key pattern of `_session_key` (manager.py line 67). -/
def sessionKey (session_id : String) : String :=
  "federation:session:" ++ session_id

/-- Key pattern of `_sandbox_key` (manager.py line 71). -/
def sandboxKey (sandbox_id : String) : String :=
  "federation:sandbox:" ++ sandbox_id

/-- Key of `_stats_key` (manager.py line 75). -/
def statsKey : String := "federation:stats"

/-- Reading a stored value as a JSON set, i.e. `set(json.loads(text))`:
on an array it is the set of its elements, on the serialized location
dict Python iterates the keys of the decoded object, on a non-JSON text
`json.loads` raises `JSONDecodeError` (`none` here).  The stats dict is
also a JSON object; its decoded keys include real-time timestamp fields,
and no run of the federation code ever reads the stats key as a set (the
key namespaces are disjoint), so that branch is mapped to `none` as well. -/
def jsonSetItems : StoredValue → Option (List String)
  | .varr items => some items
  | .vloc _ => some locationJsonKeys
  | .vstats _ _ => none
  | .vother => none

/-- Python set insertion on a deduplicated list: `items.add(value)`. -/
def setInsert (items : List String) (value : String) : List String :=
  if value ∈ items then items else items ++ [value]

/-- Method `_add_to_json_set` (manager.py lines 117-131): read the key,
decode it as a set, add the value and write the set back as a JSON list;
on a decode failure start fresh with the one-element list.  Provider
errors are not caught here (the `except` clause of the source catches
only `JSONDecodeError` and `TypeError`). -/
def addToJsonSetE (kv : SessionKV) (key value : String) :
    Except String SessionKV := do
  let existing ← kv.getE key
  match existing with
  | none => kv.setexE key (.varr (setInsert [] value))
  | some v =>
    match jsonSetItems v with
    | some items => kv.setexE key (.varr (setInsert items.dedup value))
    | none => kv.setexE key (.varr [value])

/-- Method `_remove_from_json_set` (manager.py lines 133-148): read the
key, decode it as a set, discard the value; write the remainder back, or
delete the key when the set became empty.  Absent keys and decode
failures leave the state unchanged. -/
def removeFromJsonSetE (kv : SessionKV) (key value : String) :
    Except String SessionKV := do
  let existing ← kv.getE key
  match existing with
  | none => .ok kv
  | some v =>
    match jsonSetItems v with
    | none => .ok kv
    | some items =>
      if (items.dedup.filter (fun x => x != value)).isEmpty then kv.deleteE key
      else kv.setexE key (.varr (items.dedup.filter (fun x => x != value)))

/-- Method `_get_json_set` (manager.py lines 150-158): decoded items
under the key, `[]` on absence or decode failure. -/
def getJsonSet (kv : SessionKV) (key : String) : List String :=
  match kv.map key with
  | some v => (jsonSetItems v).getD []
  | none => []

/-- Which stats counter `_update_stats` increments. -/
inductive StatName where
  | registered
  | unregistered
  deriving DecidableEq, Repr

/-- Method `_update_stats` (manager.py lines 256-273): read the stats
record, increment the named counter, write it back.  The whole body is
wrapped in `try/except Exception`, so a provider failure leaves the
state unchanged and never raises.  A non-stats value under the stats key
never arises from the federation code (the key namespaces are disjoint);
such a value is mapped to the swallowed-exception branch.  The
`created_at` / `last_updated` timestamp fields are real-time data and
are dropped. -/
def updateStats (kv : SessionKV) (stat : StatName) : SessionKV :=
  match (do
    let existing ← kv.getE statsKey
    match existing, stat with
    | none, .registered => kv.setexE statsKey (.vstats (0 + 1) 0)
    | none, .unregistered => kv.setexE statsKey (.vstats 0 (0 + 1))
    | some (.vstats r u), .registered => kv.setexE statsKey (.vstats (r + 1) u)
    | some (.vstats r u), .unregistered => kv.setexE statsKey (.vstats r (u + 1))
    | some _, _ => Except.error "unexpected value under stats key"
    : Except String SessionKV) with
  | .ok kv2 => kv2
  | .error _ => kv

/-- One index update of `register_artifact`: the `_add_to_json_set` call
inside its own `try/except` (manager.py lines 90-99 and 103-110), whose
exception is logged and swallowed so that registration continues.  On an
unreachable provider the call raised on its first read, so no mutation
happened. -/
def addToJsonSetSwallow (kv : SessionKV) (key value : String) : SessionKV :=
  match addToJsonSetE kv key value with
  | .ok kv2 => kv2
  | .error _ => kv

/-- Method `register_artifact` (manager.py lines 77-115): write the main
location record, then add the artifact id to the session index and the
sandbox index (each inside its own `try/except`, so an index failure is
logged and registration continues), then update the stats.  The memory
provider has no `sadd`, so both index updates take the JSON fallback. -/
def registerArtifactE (kv : SessionKV) (location : ArtifactLocation) :
    Except String SessionKV := do
  let kv ← kv.setexE (artifactKey location.artifact_id) (.vloc location)
  let kv := addToJsonSetSwallow kv (sessionKey location.session_id)
    location.artifact_id
  let kv := addToJsonSetSwallow kv (sandboxKey location.sandbox_id)
    location.artifact_id
  .ok (updateStats kv .registered)

/-- Method `locate_artifact` (manager.py lines 160-173): read the main
record and decode it; `none` on absence, and also on a decode failure
(the source logs the error and returns `None`; a JSON array or the stats
dict decodes but fails `from_dict` with `TypeError`). -/
def locateArtifactE (kv : SessionKV) (artifact_id : String) :
    Except String (Option ArtifactLocation) := do
  let data ← kv.getE (artifactKey artifact_id)
  match data with
  | some (.vloc loc) => .ok (some loc)
  | some _ => .ok none
  | none => .ok none

/-- Method `unregister_artifact` (manager.py lines 175-212): read the
main record (absent or undecodable gives `False` with no change), then
delete it, remove the artifact id from the session and sandbox indexes
(JSON fallback, no `srem` on the memory provider), update the stats and
return `True`. -/
def unregisterArtifactE (kv : SessionKV) (artifact_id : String) :
    Except String (Bool × SessionKV) := do
  let data ← kv.getE (artifactKey artifact_id)
  match data with
  | none => .ok (false, kv)
  | some (.vloc location) => do
    let kv ← kv.deleteE (artifactKey artifact_id)
    let kv ← removeFromJsonSetE kv (sessionKey location.session_id) artifact_id
    let kv ← removeFromJsonSetE kv (sandboxKey location.sandbox_id) artifact_id
    .ok (true, updateStats kv .unregistered)
  | some _ => .ok (false, kv)

end FederationIndex

namespace FederationManager

/-- Method `FederationManager.register_artifact` (manager.py lines
330-352): build the `ArtifactLocation` with the sandbox id of the
current sandbox and the wall-clock `stored_at` string (threaded as the
opaque parameter `now`), then register it in the index. -/
def register_artifact (current_sandbox_id : String) (kv : SessionKV)
    (artifact_id session_id grid_key : String) (size : Nat)
    (mime : String) (checksum : Option String) (now : String) :
    Except String SessionKV :=
  FederationIndex.registerArtifactE kv
    { artifact_id := artifact_id
      sandbox_id := current_sandbox_id
      session_id := session_id
      grid_key := grid_key
      size := size
      mime := mime
      stored_at := now
      checksum := checksum }

end FederationManager

/-- Byte strings are sequences of byte values. -/
abbrev Bytes := List Nat

/-- UTF-8 encoding of one Unicode code point. -/
def utf8Char (c : Char) : List Nat :=
  let n := c.toNat
  if n < 0x80 then [n]
  else if n < 0x800 then
    [0xC0 + n / 0x40, 0x80 + n % 0x40]
  else if n < 0x10000 then
    [0xE0 + n / 0x1000, 0x80 + n / 0x40 % 0x40, 0x80 + n % 0x40]
  else
    [0xF0 + n / 0x40000, 0x80 + n / 0x1000 % 0x40,
     0x80 + n / 0x40 % 0x40, 0x80 + n % 0x40]

/-- Python `str.encode()`: the UTF-8 bytes of a string. -/
def encodeStr (s : String) : Bytes :=
  (s.data.map utf8Char).flatten

/-- Errors that can escape the retrieval and deletion paths of the
store: `ArtifactNotFoundError`, other `ArtifactStoreError` kinds such as
access denial, and raw provider exceptions. -/
inductive ArtifactError where
  | notFound
  | accessDenied
  | provider (msg : String)
  deriving DecidableEq, Repr

/-- Record returned by `ArtifactStore.metadata` as consumed by the
federated store (store.py lines 92-94 and 102): the session id, the grid
key and the optional sha256 checksum of the artifact. -/
structure StoredMetadata where
  session_id : String
  key : String
  sha256 : Option String
  deriving DecidableEq, Repr

/-- State of a `FederatedArtifactStore` (store.py lines 33-57): the
sandbox identity, the `federation_enabled` flag, whether the
`_federation` manager object is present (it is created at construction
iff federation was enabled then; the flag itself may be flipped later),
and the session-provider state holding the federation index.  The base
`ArtifactStore` layer (object storage and metadata records) lives
outside this structure; its calls (`super().store`, `super().retrieve`,
`super().delete`, `self.metadata`) are modelled from the spec as opaque
outcomes passed in as arguments, since the base store source is not part
of the federation module. -/
structure FederatedArtifactStore where
  sandbox_id : String
  federation_enabled : Bool
  hasFederation : Bool
  fed : SessionKV

namespace FederatedArtifactStore

/-- Method `FederatedArtifactStore.store` (store.py lines 63-111): store
locally via the parent class (its successful result is `artifact_id`;
the claim conditions on local success), then, when federation is on, in
a `try/except` fetch the metadata and register the artifact.  Any
exception inside the `try` is logged and swallowed; the metadata call
outcome is the argument `metaResult`, and a raised registration leaves
only the mutations the provider completed, which for the modelled
all-or-nothing unreachable provider is none. -/
def store (s : FederatedArtifactStore) (artifact_id : String)
    (metaResult : Except String StoredMetadata) (dataLen : Nat)
    (mime now : String) : String × FederatedArtifactStore :=
  if s.federation_enabled && s.hasFederation then
    match (do
      let m ← metaResult
      FederationManager.register_artifact s.sandbox_id s.fed artifact_id
        m.session_id m.key dataLen mime m.sha256 now :
      Except String SessionKV) with
    | .ok fed2 => (artifact_id, { s with fed := fed2 })
    | .error _ => (artifact_id, s)
  else (artifact_id, s)

/-- Method `FederatedArtifactStore._retrieve_federated` (store.py lines
126-149): locate the artifact in the index; absence raises
`ArtifactNotFoundError`; a location pointing at the own sandbox is a
data inconsistency and raises `ArtifactNotFoundError`; otherwise the
simulated remote payload is returned, the UTF-8 bytes of the format
string built from the location record. -/
def retrieveFederated (s : FederatedArtifactStore) (artifact_id : String) :
    Except ArtifactError Bytes :=
  match FederationIndex.locateArtifactE s.fed artifact_id with
  | .error e => .error (.provider e)
  | .ok none => .error .notFound
  | .ok (some location) =>
    if location.sandbox_id = s.sandbox_id then .error .notFound
    else
      .ok (encodeStr ("[Remote data from " ++ location.sandbox_id ++ ": "
        ++ location.grid_key ++ "]"))

/-- Method `FederatedArtifactStore.retrieve` (store.py lines 113-124):
return the local result; on `ArtifactNotFoundError` fall back to the
federation when it is enabled, else re-raise.  Other local errors pass
through.  The outcome of `super().retrieve` is the argument
`superResult`. -/
def retrieve (s : FederatedArtifactStore)
    (superResult : Except ArtifactError Bytes) (artifact_id : String) :
    Except ArtifactError Bytes :=
  match superResult with
  | .ok b => .ok b
  | .error .notFound =>
    if s.federation_enabled && s.hasFederation then
      retrieveFederated s artifact_id
    else .error .notFound
  | .error e => .error e

/-- Method `FederatedArtifactStore.delete` (store.py lines 151-165):
delete locally via the parent class (outcome `superSuccess`), then, when
that succeeded and federation is on, unregister in a `try/except` whose
exceptions are logged and swallowed; return the local result. -/
def delete (s : FederatedArtifactStore) (superSuccess : Bool)
    (artifact_id : String) : Bool × FederatedArtifactStore :=
  if superSuccess && s.federation_enabled && s.hasFederation then
    match FederationIndex.unregisterArtifactE s.fed artifact_id with
    | .ok (_, fed2) => (superSuccess, { s with fed := fed2 })
    | .error _ => (superSuccess, s)
  else (superSuccess, s)

end FederatedArtifactStore

/-- Session provider state with nothing stored and the provider
reachable. -/
def emptyKV : SessionKV := { map := fun _ => none, broken := false }

namespace FederationIndex

/-- One call against a JSON-fallback set: `_add_to_json_set` or
`_remove_from_json_set` with a fixed value. -/
inductive SetOp where
  | add (v : String)
  | rem (v : String)
  deriving DecidableEq, Repr

/-- Apply one set call to the provider state. -/
def applySetOp (kv : SessionKV) (key : String) : SetOp → Except String SessionKV
  | .add v => addToJsonSetE kv key v
  | .rem v => removeFromJsonSetE kv key v

/-- Apply a sequence of set calls to the provider state, propagating a
provider failure. -/
def applySetOps (kv : SessionKV) (key : String) :
    List SetOp → Except String SessionKV
  | [] => .ok kv
  | op :: ops => do
    let kv2 ← applySetOp kv key op
    applySetOps kv2 key ops

/-- Update an abstract membership predicate by one set call. -/
def updMem (f : String → Bool) : SetOp → String → Bool
  | .add v, x => if x = v then true else f x
  | .rem v, x => if x = v then false else f x

/-- Membership after a sequence of set calls, starting from the
membership predicate `f`. -/
def memAfterFrom (f : String → Bool) : List SetOp → String → Bool
  | [], v => f v
  | op :: ops, v => memAfterFrom (updMem f op) ops v

/-- An element is a member after the sequence of set calls iff it was
added and not subsequently removed, starting from the empty set. -/
def memAfter (ops : List SetOp) (v : String) : Bool :=
  memAfterFrom (fun _ => false) ops v

/-- Shape invariant of a JSON-fallback set key: either the key is absent
and the membership predicate is empty, or the key holds a JSON array of
distinct elements, nonempty, whose members are exactly the elements the
membership predicate accepts. -/
def jsonSetInv (kv : SessionKV) (key : String) (f : String → Bool) : Prop :=
  (kv.map key = none ∧ ∀ v, f v = false) ∨
  (∃ items, kv.map key = some (.varr items) ∧ items.Nodup ∧ items ≠ [] ∧
    ∀ v, v ∈ items ↔ f v = true)

end FederationIndex

namespace Providers

/-- Modelled from the spec: one stored object of a StorageProvider
adapter, per the `put_object` / `get_object` wire surface of spec
section 6 (the adapter sources `chuk_artifacts/providers/memory.py` and
`chuk_artifacts/providers/filesystem.py` are absent from this snapshot;
only their tests are present). -/
structure S3Object where
  body : Bytes
  contentType : String
  metadata : List (String × String)
  deriving DecidableEq, Repr

/-- Modelled from the spec: the object map of a StorageProvider adapter,
keyed by bucket and key. -/
structure S3ClientState where
  objects : String → String → Option S3Object

/-- Errors of the storage wire surface relevant here: `NoSuchKey` for a
`get_object` miss and `FileNotFoundError` for presigning a missing
object. -/
inductive StorageError where
  | noSuchKey
  | fileNotFound
  deriving DecidableEq, Repr

/-- Modelled from the spec: `get_object(Bucket, Key)` returns `{Body,
ContentType, ContentLength, Metadata}` (spec section 6), raising
`NoSuchKey` on a missing object. -/
structure GetObjectResponse where
  body : Bytes
  contentType : String
  contentLength : Nat
  metadata : List (String × String)
  deriving DecidableEq, Repr

/-- Modelled from the spec: `put_object(Bucket, Key, Body, ContentType,
Metadata)` stores the object and succeeds with HTTP status 200 (the ETag
of the response is not needed by any claim and is not modelled). -/
def put_object (st : S3ClientState) (bucket key : String) (body : Bytes)
    (contentType : String) (metadata : List (String × String)) :
    S3ClientState × Nat :=
  ({ objects := fun b k =>
      if b = bucket ∧ k = key then
        some { body := body, contentType := contentType, metadata := metadata }
      else st.objects b k },
   200)

/-- Modelled from the spec: `get_object(Bucket, Key)`. -/
def get_object (st : S3ClientState) (bucket key : String) :
    Except StorageError GetObjectResponse :=
  match st.objects bucket key with
  | none => .error .noSuchKey
  | some o =>
    .ok { body := o.body, contentType := o.contentType,
          contentLength := o.body.length, metadata := o.metadata }

/-- Modelled from the spec: `delete_object(Bucket, Key)` succeeds on
absent keys and returns HTTP status 204 (spec section 6). -/
def delete_object (st : S3ClientState) (bucket key : String) :
    S3ClientState × Nat :=
  ({ objects := fun b k =>
      if b = bucket ∧ k = key then none else st.objects b k },
   204)

/-- Modelled from the spec: `generate_presigned_url(op, Params,
ExpiresIn)` for the memory and filesystem adapters raises
`FileNotFoundError` when no object is stored under the bucket and key
(spec section 9), and otherwise returns an adapter-scheme URL
`scheme://bucket/key?...` (spec section 4.3.1: `memory://` for the
memory adapter, `file://` for the filesystem adapter); the query string
carries the operation and the expiry (the random token of the memory
adapter is not modelled). -/
def generate_presigned_url (scheme : String) (st : S3ClientState)
    (op bucket key : String) (expiresIn : Nat) :
    Except StorageError String :=
  match st.objects bucket key with
  | none => .error .fileNotFound
  | some _ =>
    .ok (scheme ++ "://" ++ bucket ++ "/" ++ key ++ "?operation=" ++ op
      ++ "&expires=" ++ toString expiresIn)

end Providers

/-
Lemmas.  First the key-namespace facts: the four federation key patterns
are pairwise disjoint for all suffixes, and each pattern is injective.
-/

namespace FederationIndex

theorem artifactKey_ne_sessionKey (a b : String) :
    artifactKey a ≠ sessionKey b := by
  intro h
  have h2 := congrArg (fun s => s.data.get? 11) h
  simp [artifactKey, sessionKey] at h2

theorem artifactKey_ne_sandboxKey (a b : String) :
    artifactKey a ≠ sandboxKey b := by
  intro h
  have h2 := congrArg (fun s => s.data.get? 11) h
  simp [artifactKey, sandboxKey] at h2

theorem sessionKey_ne_sandboxKey (a b : String) :
    sessionKey a ≠ sandboxKey b := by
  intro h
  have h2 := congrArg (fun s => s.data.get? 12) h
  simp [sessionKey, sandboxKey] at h2

theorem artifactKey_ne_statsKey (a : String) :
    artifactKey a ≠ statsKey := by
  intro h
  have h2 := congrArg (fun s => s.data.get? 11) h
  simp [artifactKey, statsKey] at h2

theorem sessionKey_ne_statsKey (a : String) :
    sessionKey a ≠ statsKey := by
  intro h
  have h2 := congrArg (fun s => s.data.get? 12) h
  simp [sessionKey, statsKey] at h2

theorem sandboxKey_ne_statsKey (a : String) :
    sandboxKey a ≠ statsKey := by
  intro h
  have h2 := congrArg (fun s => s.data.get? 12) h
  simp [sandboxKey, statsKey] at h2

theorem artifactKey_injective (a b : String)
    (h : artifactKey a = artifactKey b) : a = b := by
  have h2 := congrArg String.data h
  simp [artifactKey, String.data_append] at h2
  exact String.ext h2

end FederationIndex

/-
Lemmas about the provider primitives on a reachable provider.
-/

theorem exceptOk_bind {ε α β : Type} (a : α) (f : α → Except ε β) :
    (Except.ok a >>= f) = f a := rfl

theorem exceptError_bind {ε α β : Type} (e : ε) (f : α → Except ε β) :
    ((Except.error e : Except ε α) >>= f) = Except.error e := rfl

theorem SessionKV.getE_eq (kv : SessionKV) (key : String)
    (hB : kv.broken = false) : kv.getE key = .ok (kv.map key) := by
  simp [SessionKV.getE, hB]

theorem SessionKV.setexE_eq (kv : SessionKV) (key : String) (v : StoredValue)
    (hB : kv.broken = false) :
    kv.setexE key v =
      .ok { map := fun k => if k = key then some v else kv.map k,
            broken := kv.broken } := by
  simp [SessionKV.setexE, hB]

theorem SessionKV.deleteE_eq (kv : SessionKV) (key : String)
    (hB : kv.broken = false) :
    kv.deleteE key =
      .ok { map := fun k => if k = key then none else kv.map k,
            broken := kv.broken } := by
  simp [SessionKV.deleteE, hB]

namespace FederationIndex

theorem mem_setInsert_self (l : List String) (v : String) :
    v ∈ setInsert l v := by
  by_cases h : v ∈ l <;> simp [setInsert, h]

theorem mem_setInsert_iff (l : List String) (v x : String) :
    x ∈ setInsert l v ↔ x = v ∨ x ∈ l := by
  by_cases h : v ∈ l
  · simp [setInsert, h]
    intro hx
    subst hx
    exact h
  · simp [setInsert, h, or_comm]

theorem setInsert_nodup (l : List String) (v : String) (h : l.Nodup) :
    (setInsert l v).Nodup := by
  by_cases hv : v ∈ l
  · simpa [setInsert, hv] using h
  · simp only [setInsert, hv, if_false]
    refine List.Nodup.append h (List.nodup_singleton v) ?_
    intro x hx hxs
    simp at hxs
    subst hxs
    exact hv hx

theorem setInsert_ne_nil (l : List String) (v : String) :
    setInsert l v ≠ [] := by
  intro h
  have := mem_setInsert_self l v
  simp [h] at this

/-- On a reachable provider, `_add_to_json_set` succeeds, leaves the
provider reachable, stores a JSON array containing the value under the
key, and touches no other key. -/
theorem addToJsonSetE_ok (kv : SessionKV) (key value : String)
    (hB : kv.broken = false) :
    ∃ kv2 items, addToJsonSetE kv key value = .ok kv2 ∧
      kv2.broken = false ∧
      kv2.map key = some (.varr items) ∧ value ∈ items ∧
      ∀ k2, k2 ≠ key → kv2.map k2 = kv.map k2 := by
  cases hv : kv.map key with
  | none =>
    have hred : addToJsonSetE kv key value =
        kv.setexE key (.varr (setInsert [] value)) := by
      unfold addToJsonSetE
      rw [kv.getE_eq key hB, hv]
      rfl
    rw [hred, kv.setexE_eq key (.varr (setInsert [] value)) hB]
    exact ⟨_, setInsert [] value, rfl, hB, by simp,
      mem_setInsert_self [] value, fun k2 hk2 => by simp [hk2]⟩
  | some v =>
    have hred : addToJsonSetE kv key value =
        match jsonSetItems v with
        | some items => kv.setexE key (.varr (setInsert items.dedup value))
        | none => kv.setexE key (.varr [value]) := by
      unfold addToJsonSetE
      rw [kv.getE_eq key hB, hv]
      rfl
    cases hj : jsonSetItems v with
    | none =>
      rw [hred, hj, kv.setexE_eq key (.varr [value]) hB]
      exact ⟨_, [value], rfl, hB, by simp, by simp,
        fun k2 hk2 => by simp [hk2]⟩
    | some items =>
      rw [hred, hj]
      exact ⟨_, setInsert items.dedup value,
        kv.setexE_eq key (.varr (setInsert items.dedup value)) hB, hB, by simp,
        mem_setInsert_self _ value, fun k2 hk2 => by simp [hk2]⟩

/-- On a reachable provider, `_remove_from_json_set` applied to a key
holding a JSON array succeeds, leaves the provider reachable, leaves the
key either absent or holding a JSON array without the value, and touches
no other key. -/
theorem removeFromJsonSetE_ok_varr (kv : SessionKV) (key value : String)
    (items : List String) (hB : kv.broken = false)
    (hV : kv.map key = some (.varr items)) :
    ∃ kv2, removeFromJsonSetE kv key value = .ok kv2 ∧
      kv2.broken = false ∧
      (kv2.map key = none ∨
        ∃ its, kv2.map key = some (.varr its) ∧ value ∉ its) ∧
      value ∉ getJsonSet kv2 key ∧
      ∀ k2, k2 ≠ key → kv2.map k2 = kv.map k2 := by
  have hnotmem : value ∉ items.dedup.filter (fun x => x != value) := by
    intro hmem
    have := List.of_mem_filter hmem
    simp at this
  have hred : removeFromJsonSetE kv key value =
      if (items.dedup.filter (fun x => x != value)).isEmpty then
        kv.deleteE key
      else kv.setexE key (.varr (items.dedup.filter (fun x => x != value))) := by
    unfold removeFromJsonSetE
    rw [kv.getE_eq key hB, hV]
    rfl
  rw [hred]
  by_cases hE : (items.dedup.filter (fun x => x != value)).isEmpty
  · rw [if_pos hE, kv.deleteE_eq key hB]
    exact ⟨_, rfl, hB, Or.inl (by simp), by simp [getJsonSet],
      fun k2 hk2 => by simp [hk2]⟩
  · rw [if_neg hE,
      kv.setexE_eq key (.varr (items.dedup.filter (fun x => x != value))) hB]
    refine ⟨_, rfl, hB, Or.inr ⟨_, by simp, hnotmem⟩, ?_,
      fun k2 hk2 => by simp [hk2]⟩
    simp only [getJsonSet, jsonSetItems, if_pos, Option.getD_some,
      if_true, eq_self_iff_true]
    exact hnotmem

/-- `_update_stats` never raises, never changes reachability and touches
only the stats key. -/
theorem updateStats_map_ne (kv : SessionKV) (stat : StatName) (k2 : String)
    (hk2 : k2 ≠ statsKey) : (updateStats kv stat).map k2 = kv.map k2 := by
  obtain ⟨mp, br⟩ := kv
  cases br with
  | true => rfl
  | false =>
    cases hv : mp statsKey with
    | none =>
      cases stat <;>
        simp [updateStats, SessionKV.getE, SessionKV.setexE, hv, hk2, exceptOk_bind]
    | some v =>
      cases v <;> cases stat <;>
        simp [updateStats, SessionKV.getE, SessionKV.setexE, hv, hk2, exceptOk_bind]

theorem updateStats_broken (kv : SessionKV) (stat : StatName) :
    (updateStats kv stat).broken = kv.broken := by
  obtain ⟨mp, br⟩ := kv
  cases br with
  | true => rfl
  | false =>
    cases hv : mp statsKey with
    | none =>
      cases stat <;>
        simp [updateStats, SessionKV.getE, SessionKV.setexE, hv, exceptOk_bind]
    | some v =>
      cases v <;> cases stat <;>
        simp [updateStats, SessionKV.getE, SessionKV.setexE, hv, exceptOk_bind]

/-- On an unreachable provider, `_add_to_json_set` raises on its first
read. -/
theorem addToJsonSetE_broken (kv : SessionKV) (key value : String)
    (hB : kv.broken = true) :
    addToJsonSetE kv key value = .error "session provider unreachable" := by
  unfold addToJsonSetE
  rw [show kv.getE key = .error "session provider unreachable" from by
    simp [SessionKV.getE, hB]]
  rfl

theorem addToJsonSetSwallow_broken (kv : SessionKV) (key value : String) :
    (addToJsonSetSwallow kv key value).broken = kv.broken := by
  cases hB : kv.broken with
  | true =>
    unfold addToJsonSetSwallow
    rw [addToJsonSetE_broken kv key value hB]
    exact hB
  | false =>
    obtain ⟨kv2, items, hAdd, hBr, -, -, -⟩ := addToJsonSetE_ok kv key value hB
    unfold addToJsonSetSwallow
    rw [hAdd, hBr]

theorem addToJsonSetSwallow_map_ne (kv : SessionKV) (key value k2 : String)
    (hk2 : k2 ≠ key) :
    (addToJsonSetSwallow kv key value).map k2 = kv.map k2 := by
  cases hB : kv.broken with
  | true =>
    unfold addToJsonSetSwallow
    rw [addToJsonSetE_broken kv key value hB]
  | false =>
    obtain ⟨kv2, items, hAdd, -, -, -, hOther⟩ := addToJsonSetE_ok kv key value hB
    unfold addToJsonSetSwallow
    rw [hAdd]
    exact hOther k2 hk2

theorem addToJsonSetSwallow_mem (kv : SessionKV) (key value : String)
    (hB : kv.broken = false) :
    ∃ items, (addToJsonSetSwallow kv key value).map key = some (.varr items) ∧
      value ∈ items := by
  obtain ⟨kv2, items, hAdd, -, hMap, hMem, -⟩ := addToJsonSetE_ok kv key value hB
  unfold addToJsonSetSwallow
  rw [hAdd]
  exact ⟨items, hMap, hMem⟩

/-- On a reachable provider, `register_artifact` succeeds; afterwards the
main record holds the location, both index keys hold JSON arrays
containing the artifact id, and the provider stays reachable. -/
theorem registerArtifactE_ok (kv : SessionKV) (loc : ArtifactLocation)
    (hB : kv.broken = false) :
    ∃ kv1, registerArtifactE kv loc = .ok kv1 ∧ kv1.broken = false ∧
      kv1.map (artifactKey loc.artifact_id) = some (.vloc loc) ∧
      (∃ items, kv1.map (sessionKey loc.session_id) = some (.varr items) ∧
        loc.artifact_id ∈ items) ∧
      (∃ items, kv1.map (sandboxKey loc.sandbox_id) = some (.varr items) ∧
        loc.artifact_id ∈ items) := by
  have hred : registerArtifactE kv loc =
      .ok (updateStats
        (addToJsonSetSwallow
          (addToJsonSetSwallow
            { map := fun k => if k = artifactKey loc.artifact_id then
                some (.vloc loc) else kv.map k,
              broken := kv.broken }
            (sessionKey loc.session_id) loc.artifact_id)
          (sandboxKey loc.sandbox_id) loc.artifact_id)
        .registered) := by
    unfold registerArtifactE
    rw [kv.setexE_eq (artifactKey loc.artifact_id) (.vloc loc) hB]
    rfl
  refine ⟨_, hred, ?_, ?_, ?_, ?_⟩
  · rw [updateStats_broken, addToJsonSetSwallow_broken, addToJsonSetSwallow_broken]
    exact hB
  · rw [updateStats_map_ne _ _ _ (artifactKey_ne_statsKey loc.artifact_id),
      addToJsonSetSwallow_map_ne _ _ _ _
        (artifactKey_ne_sandboxKey loc.artifact_id loc.sandbox_id),
      addToJsonSetSwallow_map_ne _ _ _ _
        (artifactKey_ne_sessionKey loc.artifact_id loc.session_id)]
    simp
  · obtain ⟨items, hMap, hMem⟩ := addToJsonSetSwallow_mem
      { map := fun k => if k = artifactKey loc.artifact_id then
          some (.vloc loc) else kv.map k,
        broken := kv.broken }
      (sessionKey loc.session_id) loc.artifact_id hB
    refine ⟨items, ?_, hMem⟩
    rw [updateStats_map_ne _ _ _ (sessionKey_ne_statsKey loc.session_id),
      addToJsonSetSwallow_map_ne _ _ _ _
        (sessionKey_ne_sandboxKey loc.session_id loc.sandbox_id)]
    exact hMap
  · have hBr2 : (addToJsonSetSwallow
        { map := fun k => if k = artifactKey loc.artifact_id then
            some (.vloc loc) else kv.map k,
          broken := kv.broken }
        (sessionKey loc.session_id) loc.artifact_id).broken = false := by
      rw [addToJsonSetSwallow_broken]
      exact hB
    obtain ⟨items, hMap, hMem⟩ := addToJsonSetSwallow_mem _
      (sandboxKey loc.sandbox_id) loc.artifact_id hBr2
    refine ⟨items, ?_, hMem⟩
    rw [updateStats_map_ne _ _ _ (sandboxKey_ne_statsKey loc.sandbox_id)]
    exact hMap

theorem getJsonSet_congr (kv kv2 : SessionKV) (key : String)
    (h : kv.map key = kv2.map key) : getJsonSet kv key = getJsonSet kv2 key := by
  unfold getJsonSet
  rw [h]

/-- On a reachable provider, `unregister_artifact` of an artifact whose
main record is stored and whose session and sandbox index keys hold JSON
arrays returns `True`; afterwards the main record is gone and the
artifact id is a member of neither index set. -/
theorem unregisterArtifactE_ok_vloc (kv : SessionKV) (aid : String)
    (loc : ArtifactLocation) (itemsS itemsB : List String)
    (hB : kv.broken = false)
    (hMain : kv.map (artifactKey aid) = some (.vloc loc))
    (hSess : kv.map (sessionKey loc.session_id) = some (.varr itemsS))
    (hSand : kv.map (sandboxKey loc.sandbox_id) = some (.varr itemsB)) :
    ∃ kv2, unregisterArtifactE kv aid = .ok (true, kv2) ∧
      kv2.broken = false ∧
      kv2.map (artifactKey aid) = none ∧
      aid ∉ getJsonSet kv2 (sessionKey loc.session_id) ∧
      aid ∉ getJsonSet kv2 (sandboxKey loc.sandbox_id) := by
  have hred : unregisterArtifactE kv aid =
      (removeFromJsonSetE
          { map := fun k => if k = artifactKey aid then none else kv.map k,
            broken := kv.broken }
          (sessionKey loc.session_id) aid >>= fun kv =>
        removeFromJsonSetE kv (sandboxKey loc.sandbox_id) aid >>= fun kv =>
        .ok (true, updateStats kv .unregistered)) := by
    unfold unregisterArtifactE
    rw [kv.getE_eq (artifactKey aid) hB, hMain,
      kv.deleteE_eq (artifactKey aid) hB]
    rfl
  have hBA : (SessionKV.mk
      (fun k => if k = artifactKey aid then none else kv.map k)
      kv.broken).broken = false := hB
  have hSessA : (SessionKV.mk
      (fun k => if k = artifactKey aid then none else kv.map k)
      kv.broken).map
      (sessionKey loc.session_id) = some (.varr itemsS) := by
    show (if sessionKey loc.session_id = artifactKey aid then none
      else kv.map (sessionKey loc.session_id)) = some (.varr itemsS)
    rw [if_neg (Ne.symm (artifactKey_ne_sessionKey aid loc.session_id))]
    exact hSess
  obtain ⟨kvB, hRem1, hBrB, hShapeB, hNotMemB, hOtherB⟩ :=
    removeFromJsonSetE_ok_varr _ (sessionKey loc.session_id) aid itemsS
      hBA hSessA
  have hSandB : kvB.map (sandboxKey loc.sandbox_id) = some (.varr itemsB) := by
    rw [hOtherB (sandboxKey loc.sandbox_id)
      (Ne.symm (sessionKey_ne_sandboxKey loc.session_id loc.sandbox_id))]
    show (if sandboxKey loc.sandbox_id = artifactKey aid then none
      else kv.map (sandboxKey loc.sandbox_id)) = some (.varr itemsB)
    rw [if_neg (Ne.symm (artifactKey_ne_sandboxKey aid loc.sandbox_id))]
    exact hSand
  obtain ⟨kvC, hRem2, hBrC, hShapeC, hNotMemC, hOtherC⟩ :=
    removeFromJsonSetE_ok_varr kvB (sandboxKey loc.sandbox_id) aid itemsB
      hBrB hSandB
  refine ⟨updateStats kvC .unregistered, ?_, ?_, ?_, ?_, ?_⟩
  · rw [hred, hRem1, exceptOk_bind, hRem2, exceptOk_bind]
  · rw [updateStats_broken]
    exact hBrC
  · rw [updateStats_map_ne _ _ _ (artifactKey_ne_statsKey aid),
      hOtherC (artifactKey aid)
        (artifactKey_ne_sandboxKey aid loc.sandbox_id),
      hOtherB (artifactKey aid)
        (artifactKey_ne_sessionKey aid loc.session_id)]
    exact if_pos rfl
  · rw [getJsonSet_congr (updateStats kvC .unregistered) kvB
      (sessionKey loc.session_id) ?_]
    · exact hNotMemB
    · rw [updateStats_map_ne _ _ _ (sessionKey_ne_statsKey loc.session_id)]
      exact hOtherC (sessionKey loc.session_id)
        (sessionKey_ne_sandboxKey loc.session_id loc.sandbox_id)
  · rw [getJsonSet_congr (updateStats kvC .unregistered) kvC
      (sandboxKey loc.sandbox_id)
      (updateStats_map_ne _ _ _ (sandboxKey_ne_statsKey loc.sandbox_id))]
    exact hNotMemC

/-- On a reachable provider, `unregister_artifact` of an artifact with no
stored location record returns `False` and leaves the state unchanged. -/
theorem unregisterArtifactE_absent (kv : SessionKV) (aid : String)
    (hB : kv.broken = false)
    (hv : kv.map (artifactKey aid) = none) :
    unregisterArtifactE kv aid = .ok (false, kv) := by
  unfold unregisterArtifactE
  rw [kv.getE_eq (artifactKey aid) hB, hv]
  rfl

/-- On a reachable provider, `locate_artifact` decodes the main record. -/
theorem locateArtifactE_vloc (kv : SessionKV) (aid : String)
    (loc : ArtifactLocation) (hB : kv.broken = false)
    (hv : kv.map (artifactKey aid) = some (.vloc loc)) :
    locateArtifactE kv aid = .ok (some loc) := by
  unfold locateArtifactE
  rw [kv.getE_eq (artifactKey aid) hB, hv]
  rfl

/-- On a reachable provider, `locate_artifact` of an absent record is
`None`. -/
theorem locateArtifactE_none (kv : SessionKV) (aid : String)
    (hB : kv.broken = false)
    (hv : kv.map (artifactKey aid) = none) :
    locateArtifactE kv aid = .ok none := by
  unfold locateArtifactE
  rw [kv.getE_eq (artifactKey aid) hB, hv]
  rfl

/-- One set call preserves the JSON-set shape invariant, tracking the
abstract membership update. -/
theorem applySetOp_inv (kv : SessionKV) (key : String) (f : String → Bool)
    (op : SetOp) (hB : kv.broken = false) (hInv : jsonSetInv kv key f) :
    ∃ kv2, applySetOp kv key op = .ok kv2 ∧ kv2.broken = false ∧
      jsonSetInv kv2 key (updMem f op) := by
  cases op with
  | add v =>
    cases hInv with
    | inl h =>
      obtain ⟨hNone, hF⟩ := h
      have hred : applySetOp kv key (.add v) =
          kv.setexE key (.varr (setInsert [] v)) := by
        unfold applySetOp addToJsonSetE
        rw [kv.getE_eq key hB, hNone]
        rfl
      rw [hred, kv.setexE_eq key (.varr (setInsert [] v)) hB]
      refine ⟨_, rfl, hB, Or.inr ⟨setInsert [] v, by simp, ?_, ?_, ?_⟩⟩
      · simp [setInsert]
      · exact setInsert_ne_nil [] v
      · intro x
        rw [mem_setInsert_iff]
        simp [updMem, hF x]
    | inr h =>
      obtain ⟨items, hMap, hNodup, hNe, hMem⟩ := h
      have hred : applySetOp kv key (.add v) =
          kv.setexE key (.varr (setInsert items.dedup v)) := by
        unfold applySetOp addToJsonSetE
        rw [kv.getE_eq key hB, hMap]
        rfl
      rw [hred, kv.setexE_eq key (.varr (setInsert items.dedup v)) hB]
      refine ⟨_, rfl, hB, Or.inr ⟨setInsert items.dedup v, by simp,
        setInsert_nodup _ _ (List.nodup_dedup items), setInsert_ne_nil _ v,
        ?_⟩⟩
      intro x
      rw [mem_setInsert_iff, List.mem_dedup]
      constructor
      · rintro (rfl | hx)
        · simp [updMem]
        · rw [hMem x] at hx
          simp [updMem, hx]
      · intro hx
        by_cases hxv : x = v
        · exact Or.inl hxv
        · simp [updMem, hxv] at hx
          exact Or.inr ((hMem x).mpr hx)
  | rem v =>
    cases hInv with
    | inl h =>
      obtain ⟨hNone, hF⟩ := h
      have hred : applySetOp kv key (.rem v) = .ok kv := by
        unfold applySetOp removeFromJsonSetE
        rw [kv.getE_eq key hB, hNone]
        rfl
      refine ⟨kv, hred, hB, Or.inl ⟨hNone, ?_⟩⟩
      intro x
      by_cases hxv : x = v <;> simp [updMem, hxv, hF x]
    | inr h =>
      obtain ⟨items, hMap, hNodup, hNe, hMem⟩ := h
      have hred : applySetOp kv key (.rem v) =
          if (items.dedup.filter (fun x => x != v)).isEmpty then
            kv.deleteE key
          else kv.setexE key (.varr (items.dedup.filter (fun x => x != v))) := by
        unfold applySetOp removeFromJsonSetE
        rw [kv.getE_eq key hB, hMap]
        rfl
      have hmemf : ∀ x, x ∈ items.dedup.filter (fun x => x != v) ↔
          (f x = true ∧ x ≠ v) := by
        intro x
        rw [List.mem_filter, List.mem_dedup, hMem x]
        simp
      by_cases hE : (items.dedup.filter (fun x => x != v)).isEmpty
      · rw [hred, if_pos hE, kv.deleteE_eq key hB]
        refine ⟨_, rfl, hB, Or.inl ⟨by simp, ?_⟩⟩
        intro x
        by_cases hxv : x = v
        · simp [updMem, hxv]
        · simp only [updMem, if_neg hxv]
          by_contra hfx
          rw [Bool.not_eq_false] at hfx
          have hx : x ∈ items.dedup.filter (fun x => x != v) :=
            (hmemf x).mpr ⟨hfx, hxv⟩
          rw [List.isEmpty_iff] at hE
          rw [hE] at hx
          simp at hx
      · rw [hred, if_neg hE,
          kv.setexE_eq key (.varr (items.dedup.filter (fun x => x != v))) hB]
        refine ⟨_, rfl, hB, Or.inr ⟨items.dedup.filter (fun x => x != v),
          by simp, List.Nodup.filter _ (List.nodup_dedup items), ?_, ?_⟩⟩
        · intro hnil
          rw [← List.isEmpty_iff] at hnil
          exact hE hnil
        · intro x
          rw [hmemf x]
          constructor
          · rintro ⟨hfx, hxv⟩
            simp [updMem, hxv, hfx]
          · intro hx
            by_cases hxv : x = v
            · rw [hxv] at hx
              simp [updMem] at hx
            · simp [updMem, hxv] at hx
              exact ⟨hx, hxv⟩

/-- Any sequence of set calls on a reachable provider succeeds and
maintains the JSON-set shape invariant. -/
theorem applySetOps_inv (key : String) (ops : List SetOp) :
    ∀ (kv : SessionKV) (f : String → Bool), kv.broken = false →
      jsonSetInv kv key f →
      ∃ kv2, applySetOps kv key ops = .ok kv2 ∧ kv2.broken = false ∧
        jsonSetInv kv2 key (memAfterFrom f ops) := by
  induction ops with
  | nil =>
    intro kv f hB hInv
    exact ⟨kv, rfl, hB, hInv⟩
  | cons op ops ih =>
    intro kv f hB hInv
    obtain ⟨kvM, hStep, hBM, hInvM⟩ := applySetOp_inv kv key f op hB hInv
    obtain ⟨kv2, hOps, hB2, hInv2⟩ := ih kvM (updMem f op) hBM hInvM
    refine ⟨kv2, ?_, hB2, hInv2⟩
    show (applySetOp kv key op >>= fun kv2 => applySetOps kv2 key ops) =
      .ok kv2
    rw [hStep, exceptOk_bind]
    exact hOps

end FederationIndex

/-
Claim theorems.
-/

/-- C1: after a successful `FederatedArtifactStore.store` in a sandbox
with federation enabled (manager present, index reachable), the store
returns the artifact id and `FederationIndex.locate_artifact` on the
shared session-provider state returns a location whose sandbox id equals
the sandbox of the storing store. -/
theorem store_then_locate_finds_own_sandbox
    (s : FederatedArtifactStore) (artifact_id : String) (m : StoredMetadata)
    (dataLen : Nat) (mime now : String)
    (hEn : s.federation_enabled = true) (hMan : s.hasFederation = true)
    (hB : s.fed.broken = false) :
    (FederatedArtifactStore.store s artifact_id (.ok m) dataLen mime now).1
        = artifact_id ∧
    ∃ loc, FederationIndex.locateArtifactE
        (FederatedArtifactStore.store s artifact_id (.ok m)
          dataLen mime now).2.fed artifact_id = .ok (some loc) ∧
      loc.sandbox_id = s.sandbox_id := by
  obtain ⟨kv1, hReg, hBr1, hMainRec, -, -⟩ :=
    FederationIndex.registerArtifactE_ok s.fed
      { artifact_id := artifact_id
        sandbox_id := s.sandbox_id
        session_id := m.session_id
        grid_key := m.key
        size := dataLen
        mime := mime
        stored_at := now
        checksum := m.sha256 } hB
  have hStore : FederatedArtifactStore.store s artifact_id (.ok m)
      dataLen mime now = (artifact_id, { s with fed := kv1 }) := by
    simp only [FederatedArtifactStore.store, hEn, hMan, Bool.and_self,
      if_true, FederationManager.register_artifact, exceptOk_bind]
    rw [hReg]
  rw [hStore]
  exact ⟨rfl, _, FederationIndex.locateArtifactE_vloc kv1 artifact_id _
    hBr1 hMainRec, rfl⟩

/-- C2: `FederatedArtifactStore.store` always returns the artifact id of
the successful local store, and `FederatedArtifactStore.delete` always
returns the local delete result, whatever the federation registration or
unregistration step does (including raising); a federation-index failure
is never surfaced by either operation. -/
theorem federation_failure_never_surfaced
    (s : FederatedArtifactStore) (artifact_id : String)
    (metaResult : Except String StoredMetadata) (dataLen : Nat)
    (mime now : String) (superSuccess : Bool) :
    (FederatedArtifactStore.store s artifact_id metaResult
        dataLen mime now).1 = artifact_id ∧
    (FederatedArtifactStore.delete s superSuccess artifact_id).1
        = superSuccess := by
  constructor
  · unfold FederatedArtifactStore.store
    split
    · split <;> rfl
    · rfl
  · unfold FederatedArtifactStore.delete
    split
    · split <;> rfl
    · rfl

/-- C3: when the local retrieve raised `ArtifactNotFoundError` and the
federation index holds a location in a different sandbox, the federated
retrieve returns the UTF-8 bytes of the simulated remote-data string
built from the location record alone. -/
theorem retrieve_federated_returns_simulated_remote
    (s : FederatedArtifactStore) (artifact_id : String)
    (loc : ArtifactLocation)
    (hEn : s.federation_enabled = true) (hMan : s.hasFederation = true)
    (hLoc : FederationIndex.locateArtifactE s.fed artifact_id
      = .ok (some loc))
    (hNe : loc.sandbox_id ≠ s.sandbox_id) :
    FederatedArtifactStore.retrieve s (.error .notFound) artifact_id =
      .ok (encodeStr ("[Remote data from " ++ loc.sandbox_id ++ ": "
        ++ loc.grid_key ++ "]")) := by
  have hstep : FederatedArtifactStore.retrieve s (.error .notFound)
      artifact_id =
      if s.federation_enabled && s.hasFederation then
        FederatedArtifactStore.retrieveFederated s artifact_id
      else .error .notFound := rfl
  rw [hstep, hEn, hMan, if_pos (show (true && true) = true from rfl)]
  unfold FederatedArtifactStore.retrieveFederated
  rw [hLoc]
  show (if loc.sandbox_id = s.sandbox_id then
    Except.error ArtifactError.notFound
    else Except.ok (encodeStr ("[Remote data from " ++ loc.sandbox_id
      ++ ": " ++ loc.grid_key ++ "]"))) = _
  rw [if_neg hNe]

/-- C4: after registering a location on a reachable index, the first
`unregister_artifact` returns `True`, after which `locate_artifact`
returns `None` and the artifact id is a member of neither the session
index set nor the sandbox index set; `unregister_artifact` of an
artifact id with no stored location record returns `False` and changes
no state. -/
theorem unregister_reverses_register (kv : SessionKV)
    (loc : ArtifactLocation) (aid2 : String)
    (hB : kv.broken = false)
    (hAbs : kv.map (FederationIndex.artifactKey aid2) = none) :
    (∃ kv1 kv2, FederationIndex.registerArtifactE kv loc = .ok kv1 ∧
      FederationIndex.unregisterArtifactE kv1 loc.artifact_id
        = .ok (true, kv2) ∧
      FederationIndex.locateArtifactE kv2 loc.artifact_id = .ok none ∧
      loc.artifact_id ∉ FederationIndex.getJsonSet kv2
        (FederationIndex.sessionKey loc.session_id) ∧
      loc.artifact_id ∉ FederationIndex.getJsonSet kv2
        (FederationIndex.sandboxKey loc.sandbox_id)) ∧
    FederationIndex.unregisterArtifactE kv aid2 = .ok (false, kv) := by
  constructor
  · obtain ⟨kv1, hReg, hBr1, hMain, ⟨itemsS, hS, -⟩, ⟨itemsB, hBd, -⟩⟩ :=
      FederationIndex.registerArtifactE_ok kv loc hB
    obtain ⟨kv2, hUnreg, hBr2, hMain2, hNot1, hNot2⟩ :=
      FederationIndex.unregisterArtifactE_ok_vloc kv1 loc.artifact_id loc
        itemsS itemsB hBr1 hMain hS hBd
    exact ⟨kv1, kv2, hReg, hUnreg,
      FederationIndex.locateArtifactE_none kv2 loc.artifact_id hBr2 hMain2,
      hNot1, hNot2⟩
  · exact FederationIndex.unregisterArtifactE_absent kv aid2 hB hAbs

/-- C5: with the `federation_enabled` flag off (whether the manager
object exists or not), `retrieve` returns exactly the local result (in
particular the bytes of a locally stored artifact), and `store` and
`delete` return their local results without touching the federation
state; no federation-index error can surface. -/
theorem federation_disabled_is_transparent
    (s : FederatedArtifactStore) (h : s.federation_enabled = false)
    (superResult : Except ArtifactError Bytes) (artifact_id aid2 : String)
    (metaResult : Except String StoredMetadata) (dataLen : Nat)
    (mime now : String) (superSuccess : Bool) :
    FederatedArtifactStore.retrieve s superResult artifact_id
        = superResult ∧
    FederatedArtifactStore.store s aid2 metaResult dataLen mime now
        = (aid2, s) ∧
    FederatedArtifactStore.delete s superSuccess artifact_id
        = (superSuccess, s) := by
  refine ⟨?_, ?_, ?_⟩
  · cases superResult with
    | ok b => rfl
    | error e =>
      cases e with
      | notFound =>
        show (if s.federation_enabled && s.hasFederation then
          FederatedArtifactStore.retrieveFederated s artifact_id
          else .error .notFound) = .error .notFound
        rw [h]
        simp
      | accessDenied => rfl
      | provider msg => rfl
  · unfold FederatedArtifactStore.store
    rw [h]
    simp
  · unfold FederatedArtifactStore.delete
    rw [h]
    simp

/-- C6: starting from an absent key on a provider without native sets,
any sequence of `_add_to_json_set` and `_remove_from_json_set` calls
keeps the key either absent (exactly when nothing is currently a member)
or bound to a JSON array without duplicates whose elements are exactly
the values added and not subsequently removed. -/
theorem json_set_fallback_semantics (kv : SessionKV) (key : String)
    (ops : List FederationIndex.SetOp)
    (hB : kv.broken = false) (h0 : kv.map key = none) :
    ∃ kv2, FederationIndex.applySetOps kv key ops = .ok kv2 ∧
      FederationIndex.jsonSetInv kv2 key (FederationIndex.memAfter ops) := by
  obtain ⟨kv2, h1, -, h3⟩ := FederationIndex.applySetOps_inv key ops kv
    (fun _ => false) hB (Or.inl ⟨h0, fun _ => rfl⟩)
  exact ⟨kv2, h1, h3⟩

/-- C10: when the local retrieve raised `ArtifactNotFoundError` and the
federation index holds a location pointing at the own sandbox, the
federated retrieve raises `ArtifactNotFoundError` and never returns
bytes. -/
theorem retrieve_federated_self_location_not_found
    (s : FederatedArtifactStore) (artifact_id : String)
    (loc : ArtifactLocation)
    (hEn : s.federation_enabled = true) (hMan : s.hasFederation = true)
    (hLoc : FederationIndex.locateArtifactE s.fed artifact_id
      = .ok (some loc))
    (hEq : loc.sandbox_id = s.sandbox_id) :
    FederatedArtifactStore.retrieve s (.error .notFound) artifact_id =
      .error .notFound := by
  have hstep : FederatedArtifactStore.retrieve s (.error .notFound)
      artifact_id =
      if s.federation_enabled && s.hasFederation then
        FederatedArtifactStore.retrieveFederated s artifact_id
      else .error .notFound := rfl
  rw [hstep, hEn, hMan, if_pos (show (true && true) = true from rfl)]
  unfold FederatedArtifactStore.retrieveFederated
  rw [hLoc]
  show (if loc.sandbox_id = s.sandbox_id then
    Except.error ArtifactError.notFound
    else Except.ok (encodeStr ("[Remote data from " ++ loc.sandbox_id
      ++ ": " ++ loc.grid_key ++ "]"))) = _
  rw [if_pos hEq]

/-- C7: for the memory and filesystem adapters, presigning a get for a
missing object raises `FileNotFoundError`, while presigning a stored
object returns a URL that begins with the adapter scheme followed by the
bucket and key. -/
theorem presigned_url_requires_object (scheme : String)
    (st : Providers.S3ClientState) (op b1 k1 b2 k2 : String)
    (e1 e2 : Nat) (o : Providers.S3Object)
    (hAbs : st.objects b1 k1 = none)
    (hPres : st.objects b2 k2 = some o) :
    Providers.generate_presigned_url scheme st op b1 k1 e1
        = .error .fileNotFound ∧
    ∃ q, Providers.generate_presigned_url scheme st op b2 k2 e2
        = .ok (scheme ++ "://" ++ b2 ++ "/" ++ k2 ++ q) := by
  constructor
  · unfold Providers.generate_presigned_url
    rw [hAbs]
  · refine ⟨"?operation=" ++ op ++ "&expires=" ++ toString e2, ?_⟩
    unfold Providers.generate_presigned_url
    rw [hPres]
    simp [String.append_assoc]

/-- C8: `delete_object` returns HTTP 204 whether or not the key holds an
object, afterwards `get_object` on the same bucket and key fails with
`NoSuchKey`, and a second `delete_object` still returns 204. -/
theorem delete_object_idempotent_204 (st : Providers.S3ClientState)
    (bucket key : String) :
    (Providers.delete_object st bucket key).2 = 204 ∧
    Providers.get_object (Providers.delete_object st bucket key).1
        bucket key = .error .noSuchKey ∧
    (Providers.delete_object (Providers.delete_object st bucket key).1
        bucket key).2 = 204 := by
  refine ⟨rfl, ?_, rfl⟩
  unfold Providers.get_object Providers.delete_object
  simp

/-- C9: `get_object` after `put_object` returns the stored body
byte-for-byte together with its content type, metadata, and a
`ContentLength` equal to the byte length of the body. -/
theorem get_after_put_roundtrip (st : Providers.S3ClientState)
    (bucket key : String) (body : Bytes) (contentType : String)
    (metadata : List (String × String)) :
    Providers.get_object
        (Providers.put_object st bucket key body contentType metadata).1
        bucket key =
      .ok { body := body, contentType := contentType,
            contentLength := body.length, metadata := metadata } := by
  unfold Providers.get_object Providers.put_object
  simp

/-
Witnesses: each claim theorem with hypotheses applied at one concrete
input, all hypotheses discharged by evaluation.
-/

/-- Witness for C1: storing artifact `art-1` in sandbox `sandbox-a` on an
empty reachable index. -/
theorem store_then_locate_finds_own_sandbox_witness :
    (FederatedArtifactStore.store
        ⟨"sandbox-a", true, true, emptyKV⟩ "art-1"
        (.ok ⟨"sess-1", "grid/sandbox-a/sess-sess-1/art-1", none⟩)
        5 "text/plain" "t0").1 = "art-1" ∧
    ∃ loc, FederationIndex.locateArtifactE
        (FederatedArtifactStore.store
          ⟨"sandbox-a", true, true, emptyKV⟩ "art-1"
          (.ok ⟨"sess-1", "grid/sandbox-a/sess-sess-1/art-1", none⟩)
          5 "text/plain" "t0").2.fed "art-1" = .ok (some loc) ∧
      loc.sandbox_id = "sandbox-a" :=
  store_then_locate_finds_own_sandbox
    ⟨"sandbox-a", true, true, emptyKV⟩ "art-1"
    ⟨"sess-1", "grid/sandbox-a/sess-sess-1/art-1", none⟩
    5 "text/plain" "t0" rfl rfl rfl

/-- Witness for C3: a remote location in `sandbox-b` observed from a
store in `sandbox-a`. -/
theorem retrieve_federated_returns_simulated_remote_witness :
    FederatedArtifactStore.retrieve
      ⟨"sandbox-a", true, true,
        SessionKV.mk
          (fun k => if k = FederationIndex.artifactKey "art-1" then
            some (.vloc ⟨"art-1", "sandbox-b", "sess-1",
              "grid/sandbox-b/sess-sess-1/art-1", 5, "text/plain", "t0",
              none⟩)
            else none)
          false⟩
      (.error .notFound) "art-1" =
    .ok (encodeStr ("[Remote data from " ++ "sandbox-b" ++ ": "
      ++ "grid/sandbox-b/sess-sess-1/art-1" ++ "]")) :=
  retrieve_federated_returns_simulated_remote
    ⟨"sandbox-a", true, true,
      SessionKV.mk
        (fun k => if k = FederationIndex.artifactKey "art-1" then
          some (.vloc ⟨"art-1", "sandbox-b", "sess-1",
            "grid/sandbox-b/sess-sess-1/art-1", 5, "text/plain", "t0",
            none⟩)
          else none)
        false⟩
    "art-1"
    ⟨"art-1", "sandbox-b", "sess-1", "grid/sandbox-b/sess-sess-1/art-1",
      5, "text/plain", "t0", none⟩
    rfl rfl (by rw [FederationIndex.locateArtifactE_vloc] <;> rfl)
    (by decide)

/-- Witness for C4: register then unregister `art-1` on an empty
reachable index, and unregister of the absent id `other`. -/
theorem unregister_reverses_register_witness :
    (∃ kv1 kv2, FederationIndex.registerArtifactE emptyKV
        ⟨"art-1", "sandbox-a", "sess-1",
          "grid/sandbox-a/sess-sess-1/art-1", 5, "text/plain", "t0",
          none⟩ = .ok kv1 ∧
      FederationIndex.unregisterArtifactE kv1 "art-1" = .ok (true, kv2) ∧
      FederationIndex.locateArtifactE kv2 "art-1" = .ok none ∧
      "art-1" ∉ FederationIndex.getJsonSet kv2
        (FederationIndex.sessionKey "sess-1") ∧
      "art-1" ∉ FederationIndex.getJsonSet kv2
        (FederationIndex.sandboxKey "sandbox-a")) ∧
    FederationIndex.unregisterArtifactE emptyKV "other"
      = .ok (false, emptyKV) :=
  unregister_reverses_register emptyKV
    ⟨"art-1", "sandbox-a", "sess-1", "grid/sandbox-a/sess-sess-1/art-1",
      5, "text/plain", "t0", none⟩
    "other" rfl rfl

/-- Witness for C5: a store whose federation flag is off passes local
results through unchanged. -/
theorem federation_disabled_is_transparent_witness :
    FederatedArtifactStore.retrieve
        ⟨"sandbox-a", false, true, emptyKV⟩ (.ok [104, 105]) "art-1"
        = .ok [104, 105] ∧
    FederatedArtifactStore.store ⟨"sandbox-a", false, true, emptyKV⟩
        "art-2" (.error "metadata lookup failed") 5 "text/plain" "t0"
        = ("art-2", ⟨"sandbox-a", false, true, emptyKV⟩) ∧
    FederatedArtifactStore.delete ⟨"sandbox-a", false, true, emptyKV⟩
        true "art-1"
        = (true, ⟨"sandbox-a", false, true, emptyKV⟩) :=
  federation_disabled_is_transparent
    ⟨"sandbox-a", false, true, emptyKV⟩ rfl (.ok [104, 105]) "art-1"
    "art-2" (.error "metadata lookup failed") 5 "text/plain" "t0" true

/-- Witness for C6: the call sequence add a, add a, remove a, add b on an
initially absent session index key. -/
theorem json_set_fallback_semantics_witness :
    ∃ kv2, FederationIndex.applySetOps emptyKV "federation:session:s1"
        [.add "a", .add "a", .rem "a", .add "b"] = .ok kv2 ∧
      FederationIndex.jsonSetInv kv2 "federation:session:s1"
        (FederationIndex.memAfter [.add "a", .add "a", .rem "a",
          .add "b"]) :=
  json_set_fallback_semantics emptyKV "federation:session:s1"
    [.add "a", .add "a", .rem "a", .add "b"] rfl rfl

/-- Witness for C7: the memory adapter with one stored object presigns it
and refuses a missing key. -/
theorem presigned_url_requires_object_witness :
    Providers.generate_presigned_url "memory"
        (Providers.S3ClientState.mk
          (fun b k => if b = "bucket-1" ∧ k = "key-1" then
            some ⟨[1, 2, 3], "text/plain", []⟩ else none))
        "get_object" "bucket-1" "missing" 3600 = .error .fileNotFound ∧
    ∃ q, Providers.generate_presigned_url "memory"
        (Providers.S3ClientState.mk
          (fun b k => if b = "bucket-1" ∧ k = "key-1" then
            some ⟨[1, 2, 3], "text/plain", []⟩ else none))
        "get_object" "bucket-1" "key-1" 3600
        = .ok ("memory" ++ "://" ++ "bucket-1" ++ "/" ++ "key-1" ++ q) :=
  presigned_url_requires_object "memory"
    (Providers.S3ClientState.mk
      (fun b k => if b = "bucket-1" ∧ k = "key-1" then
        some ⟨[1, 2, 3], "text/plain", []⟩ else none))
    "get_object" "bucket-1" "missing" "bucket-1" "key-1" 3600 3600
    ⟨[1, 2, 3], "text/plain", []⟩ (by simp) (by simp)

/-- Witness for C10: a self-referencing location in `sandbox-a` observed
from the store of `sandbox-a` itself. -/
theorem retrieve_federated_self_location_not_found_witness :
    FederatedArtifactStore.retrieve
      ⟨"sandbox-a", true, true,
        SessionKV.mk
          (fun k => if k = FederationIndex.artifactKey "art-9" then
            some (.vloc ⟨"art-9", "sandbox-a", "sess-1",
              "grid/sandbox-a/sess-sess-1/art-9", 5, "text/plain", "t0",
              none⟩)
            else none)
          false⟩
      (.error .notFound) "art-9" = .error .notFound :=
  retrieve_federated_self_location_not_found
    ⟨"sandbox-a", true, true,
      SessionKV.mk
        (fun k => if k = FederationIndex.artifactKey "art-9" then
          some (.vloc ⟨"art-9", "sandbox-a", "sess-1",
            "grid/sandbox-a/sess-sess-1/art-9", 5, "text/plain", "t0",
            none⟩)
          else none)
        false⟩
    "art-9"
    ⟨"art-9", "sandbox-a", "sess-1", "grid/sandbox-a/sess-sess-1/art-9",
      5, "text/plain", "t0", none⟩
    rfl rfl (by rw [FederationIndex.locateArtifactE_vloc] <;> rfl) rfl

end ChukArtifacts
